import Mathlib

/-!
Verification of the PDF content-stream interpreter (`pdfminer/pdfinterp.py`).

This file gives a shallow embedding of the interpreter's data model and
operator semantics.  Numbers are modelled as rationals (the source operates
on Python ints/floats; every claim below is an exact algebraic statement).
State mutation is modelled by explicit state passing; calls to the rendering
sink (`device`) are modelled as an emitted trace of `DeviceCall` values.
Definitions follow the source's structure and names (`do_q`, `do_Q`,
`do_cm`, ..., with `*`, `'`, `"` rendered as `_a`, `_q`, `_w` exactly as in
`PDFPageInterpreter.execute`).  Lenient mode (`settings.STRICT = False`) is
the modelled mode; the few strict-only `raise` branches are noted in the
comments of the handlers that contain them.
-/

namespace Pdf

/-- Affine matrix `(a, b, c, d, e, f)` as in `pdfminer.utils`. -/
def Matrix : Type := ℚ × ℚ × ℚ × ℚ × ℚ × ℚ

/-- Point `(x, y)`. -/
def Point : Type := ℚ × ℚ

/-- Rectangle `(x0, y0, x1, y1)`. -/
def Rect : Type := ℚ × ℚ × ℚ × ℚ

/-- Modelled from the spec: `MATRIX_IDENTITY` of `pdfminer.utils`
(not under `src/`): the identity matrix is `(1, 0, 0, 1, 0, 0)`. -/
def MATRIX_IDENTITY : Matrix := (1, 0, 0, 1, 0, 0)

/-- Modelled from the spec: `mult_matrix(m1, m0)` of `pdfminer.utils`
(not under `src/`): composition of affine maps applying `m1` first and
then `m0` (row-vector convention of the PDF reference). -/
def mult_matrix (m1 m0 : Matrix) : Matrix :=
  match m1, m0 with
  | (a1, b1, c1, d1, e1, f1), (a0, b0, c0, d0, e0, f0) =>
    (a1 * a0 + b1 * c0,
     a1 * b0 + b1 * d0,
     c1 * a0 + d1 * c0,
     c1 * b0 + d1 * d0,
     e1 * a0 + f1 * c0 + e0,
     e1 * b0 + f1 * d0 + f0)

/-- Operand objects that may appear on the interpreter's argument stack
(`PDFStackT` in the source): numbers, name literals (`PSLiteral`),
byte strings, arrays, and null. -/
inductive PDFObj where
  | num (q : ℚ)
  | name (s : String)
  | str (bytes : List Nat)
  | arr (items : List PDFObj)
  | null

/-- Modelled from the spec: `safe_float` of `pdfminer.casting` (not under
`src/`): returns the numeric value of a numeric operand and `none`
otherwise ("Invalid numeric operands in lenient mode are no-ops"). -/
def safe_float : PDFObj → Option ℚ
  | .num q => some q
  | _ => none

/-- Modelled from the spec: `PDFColorSpace` of `pdfminer.pdfcolor` (not
under `src/`): a named color space with a fixed component count. -/
structure PDFColorSpace where
  name : String
  ncomponents : Nat
deriving DecidableEq

/-- Modelled from the spec: the predefined color-space table of
`pdfminer.pdfcolor` (not under `src/`), listed in spec section 4.5:
DeviceGray, DeviceRGB, DeviceCMYK, CalGray, CalRGB, CalCMYK, Lab,
ICCBased, Pattern, Indexed, Separation, DeviceN, each with a fixed
component count. -/
def PREDEFINED_COLORSPACE : List (String × PDFColorSpace) :=
  [("DeviceGray", ⟨"DeviceGray", 1⟩),
   ("DeviceRGB", ⟨"DeviceRGB", 3⟩),
   ("DeviceCMYK", ⟨"DeviceCMYK", 4⟩),
   ("CalGray", ⟨"CalGray", 1⟩),
   ("CalRGB", ⟨"CalRGB", 3⟩),
   ("CalCMYK", ⟨"CalCMYK", 4⟩),
   ("Lab", ⟨"Lab", 3⟩),
   ("ICCBased", ⟨"ICCBased", 1⟩),
   ("Pattern", ⟨"Pattern", 1⟩),
   ("Indexed", ⟨"Indexed", 1⟩),
   ("Separation", ⟨"Separation", 1⟩),
   ("DeviceN", ⟨"DeviceN", 1⟩)]

/-- Modelled from the spec: fonts are produced by the external
`pdfminer.pdffont` module (out of scope, "delegated to a FontRegistry");
here a font is an opaque token. -/
structure PDFFont where
  fid : Nat
deriving DecidableEq

/-- Modelled from the spec: `rsrcmgr.get_font(None, {})`, the default
font substituted by `do_Tf` in lenient mode when a font id is missing. -/
def defaultFont : PDFFont := ⟨0⟩

/-- Text state (`PDFTextState` in the source).  `render` is annotated
`int` in the source but receives whatever operand `Tr` pops; it is
modelled as a rational like the other numeric fields. -/
structure PDFTextState where
  font : Option PDFFont
  fontsize : ℚ
  charspace : ℚ
  wordspace : ℚ
  scaling : ℚ
  leading : ℚ
  render : ℚ
  rise : ℚ
  matrix : Matrix
  linematrix : Point

/-- Source `PDFTextState.reset`: set `matrix` to the identity and `linematrix`
to the origin. -/
def PDFTextState.reset (ts : PDFTextState) : PDFTextState :=
  { ts with matrix := MATRIX_IDENTITY, linematrix := ((0 : ℚ), (0 : ℚ)) }

/-- Source `PDFTextState.__init__`: all numeric fields zero except
`scaling = 100`, no font, then `reset()`. -/
def PDFTextState.init : PDFTextState :=
  PDFTextState.reset
    { font := none, fontsize := 0, charspace := 0, wordspace := 0,
      scaling := 100, leading := 0, render := 0, rise := 0,
      matrix := MATRIX_IDENTITY, linematrix := ((0 : ℚ), (0 : ℚ)) }

/-- Source `PDFTextState.copy`: a field-by-field copy (value semantics). -/
def PDFTextState.copy (ts : PDFTextState) : PDFTextState :=
  { font := ts.font, fontsize := ts.fontsize, charspace := ts.charspace,
    wordspace := ts.wordspace, scaling := ts.scaling, leading := ts.leading,
    render := ts.render, rise := ts.rise, matrix := ts.matrix,
    linematrix := ts.linematrix }

/-- Color values stored in the graphic state: the scalar set by `G`/`g`,
the triple set by `RG`/`rg`, the quadruple set by `K`/`k`, or the operand
list popped by `SCN`/`scn`. -/
inductive ColorValue where
  | scalar (g : PDFObj)
  | rgb (r g b : PDFObj)
  | cmyk (c m y k : PDFObj)
  | vec (components : List PDFObj)

/-- Graphic state (`PDFGraphicState` in the source). -/
structure PDFGraphicState where
  linewidth : ℚ
  linecap : Option PDFObj
  linejoin : Option PDFObj
  miterlimit : Option PDFObj
  dash : Option (PDFObj × PDFObj)
  intent : Option PDFObj
  flatness : Option PDFObj
  scolor : Option ColorValue
  ncolor : Option ColorValue

/-- Source `PDFGraphicState.__init__`: zero line width, everything else unset. -/
def PDFGraphicState.init : PDFGraphicState :=
  { linewidth := 0, linecap := none, linejoin := none, miterlimit := none,
    dash := none, intent := none, flatness := none,
    scolor := none, ncolor := none }

/-- Source `PDFGraphicState.copy`: a field-by-field copy (value semantics). -/
def PDFGraphicState.copy (gs : PDFGraphicState) : PDFGraphicState :=
  { linewidth := gs.linewidth, linecap := gs.linecap, linejoin := gs.linejoin,
    miterlimit := gs.miterlimit, dash := gs.dash, intent := gs.intent,
    flatness := gs.flatness, scolor := gs.scolor, ncolor := gs.ncolor }

/-- Path segments, the tuples `("m", x, y)`, `("l", x, y)`, `("c", ...)`,
`("v", ...)`, `("y", ...)`, `("h",)` appended to `curpath`. -/
inductive PathSegment where
  | m (x y : ℚ)
  | l (x y : ℚ)
  | c (x1 y1 x2 y2 x3 y3 : ℚ)
  | v (x2 y2 x3 y3 : ℚ)
  | y (x1 y1 x3 y3 : ℚ)
  | h

/-- Calls made on the rendering sink (`self.device`), in order. -/
inductive DeviceCall where
  | set_ctm (m : Matrix)
  | paint_path (gstate : PDFGraphicState) (stroke fill evenodd : Bool)
      (path : List PathSegment)
  | render_string (tstate : PDFTextState) (seq : List PDFObj)
      (ncs : Option PDFColorSpace) (gstate : PDFGraphicState)
      (instruction_index : Option Nat)
  | begin_figure (xobjid : String) (bbox : Rect) (matrix : Matrix)
  | end_figure (xobjid : String)
  | render_image (xobjid : String)
  | do_tag (tag : PDFObj) (props : Option PDFObj)
  | begin_tag (tag : PDFObj) (props : Option PDFObj)
  | end_tag

/-- The mutable interpreter state set up by `init_state`. -/
structure InterpState where
  ctm : Matrix
  textstate : PDFTextState
  graphicstate : PDFGraphicState
  gstack : List (Matrix × PDFTextState × PDFGraphicState)
  curpath : List PathSegment
  argstack : List PDFObj
  scs : Option PDFColorSpace
  ncs : Option PDFColorSpace

/-- The per-invocation read-only context built by `init_resources`:
the color-space map and the font map (both are only written during
`init_resources`, never by an operator). -/
structure Ctx where
  csmap : List (String × PDFColorSpace)
  fontmap : List (String × PDFFont)

/-- Association-list lookup, the Python `dict` read `m[k]` / `m.get(k)`. -/
def lookupD {A : Type} (m : List (String × A)) (k : String) : Option A :=
  (m.find? (fun p => p.1 = k)).map (fun p => p.2)

/-- Association-list insert-or-overwrite, the Python `dict` write
`m[k] = v` (an existing key keeps its position; a new key is appended). -/
def dictInsert {A : Type} (m : List (String × A)) (k : String) (v : A) :
    List (String × A) :=
  if m.any (fun p => p.1 = k) then
    m.map (fun p => if p.1 = k then (k, v) else p)
  else
    m ++ [(k, v)]

/-- Source `PDFPageInterpreter.pop(n)`: return the last `n` operands (all of
them when fewer are available, exactly as the Python slices
`argstack[-n:]` / `argstack[:-n]` behave) together with the remaining
stack; `pop(0)` returns `[]` and leaves the stack unchanged. -/
def popN (stack : List PDFObj) (n : Nat) : List PDFObj × List PDFObj :=
  if n = 0 then ([], stack)
  else (stack.drop (stack.length - n), stack.take (stack.length - n))

/-- Source `PDFPageInterpreter.get_current_state`:
`(ctm, textstate.copy(), graphicstate.copy())`. -/
def get_current_state (st : InterpState) :
    Matrix × PDFTextState × PDFGraphicState :=
  (st.ctm, st.textstate.copy, st.graphicstate.copy)

/-- Source `do_q`: push the current state onto `gstack`. -/
def do_q (st : InterpState) : InterpState :=
  { st with gstack := get_current_state st :: st.gstack }

/-- Source `do_Q`: pop `gstack` if non-empty, restore `ctm`, `textstate`,
`graphicstate` (via `set_current_state`) and re-notify the device of the
CTM; an empty `gstack` is a no-op. -/
def do_Q (st : InterpState) : InterpState × List DeviceCall :=
  match st.gstack with
  | [] => (st, [])
  | (sctm, sts, sgs) :: rest =>
    ({ st with
        ctm := sctm, textstate := sts, graphicstate := sgs,
        gstack := rest },
     [DeviceCall.set_ctm sctm])

/-- Source `do_cm`: concatenate the operand matrix onto the CTM and notify the
device. -/
def do_cm (a1 b1 c1 d1 e1 f1 : ℚ) (st : InterpState) :
    InterpState × List DeviceCall :=
  ({ st with ctm := mult_matrix (a1, b1, c1, d1, e1, f1) st.ctm },
   [DeviceCall.set_ctm (mult_matrix (a1, b1, c1, d1, e1, f1) st.ctm)])

/-- Source `do_w`: set the line width. -/
def do_w (linewidth : ℚ) (st : InterpState) : InterpState :=
  { st with graphicstate := { st.graphicstate with linewidth := linewidth } }

/-- Source `do_J`: set the line cap style. -/
def do_J (linecap : PDFObj) (st : InterpState) : InterpState :=
  { st with graphicstate := { st.graphicstate with linecap := some linecap } }

/-- Source `do_j`: set the line join style. -/
def do_j (linejoin : PDFObj) (st : InterpState) : InterpState :=
  { st with graphicstate := { st.graphicstate with linejoin := some linejoin } }

/-- Source `do_M`: set the miter limit. -/
def do_M (miterlimit : PDFObj) (st : InterpState) : InterpState :=
  { st with graphicstate :=
      { st.graphicstate with miterlimit := some miterlimit } }

/-- Source `do_d`: set the dash pattern. -/
def do_d (dash phase : PDFObj) (st : InterpState) : InterpState :=
  { st with graphicstate := { st.graphicstate with dash := some (dash, phase) } }

/-- Source `do_ri`: set the rendering intent. -/
def do_ri (intent : PDFObj) (st : InterpState) : InterpState :=
  { st with graphicstate := { st.graphicstate with intent := some intent } }

/-- Source `do_i`: set the flatness tolerance. -/
def do_i (flatness : PDFObj) (st : InterpState) : InterpState :=
  { st with graphicstate := { st.graphicstate with flatness := some flatness } }

/-- Source `do_m`: begin a new subpath. -/
def do_m (x y : ℚ) (st : InterpState) : InterpState :=
  { st with curpath := st.curpath ++ [PathSegment.m x y] }

/-- Source `do_l`: append a straight line segment. -/
def do_l (x y : ℚ) (st : InterpState) : InterpState :=
  { st with curpath := st.curpath ++ [PathSegment.l x y] }

/-- Source `do_c`: append a curve with three control points. -/
def do_c (x1 y1 x2 y2 x3 y3 : ℚ) (st : InterpState) : InterpState :=
  { st with curpath := st.curpath ++ [PathSegment.c x1 y1 x2 y2 x3 y3] }

/-- Source `do_v`: append a curve with the initial point replicated. -/
def do_v (x2 y2 x3 y3 : ℚ) (st : InterpState) : InterpState :=
  { st with curpath := st.curpath ++ [PathSegment.v x2 y2 x3 y3] }

/-- Source `do_y`: append a curve with the final point replicated. -/
def do_y (x1 y1 x3 y3 : ℚ) (st : InterpState) : InterpState :=
  { st with curpath := st.curpath ++ [PathSegment.y x1 y1 x3 y3] }

/-- Source `do_h`: close the subpath. -/
def do_h (st : InterpState) : InterpState :=
  { st with curpath := st.curpath ++ [PathSegment.h] }

/-- Source `do_re`: append a rectangle, expanded into
`m(x,y); l(x+w,y); l(x+w,y+h); l(x,y+h); h`. -/
def do_re (x y w h : ℚ) (st : InterpState) : InterpState :=
  { st with curpath := st.curpath ++
      [PathSegment.m x y, PathSegment.l (x + w) y,
       PathSegment.l (x + w) (y + h), PathSegment.l x (y + h),
       PathSegment.h] }

/-- Source `do_S`: stroke the path (`paint_path(gs, True, False, False, curpath)`)
and clear `curpath`. -/
def do_S (st : InterpState) : InterpState × List DeviceCall :=
  ({ st with curpath := [] },
   [DeviceCall.paint_path st.graphicstate true false false st.curpath])

/-- Source `do_s`: close then stroke (`do_h(); do_S()`). -/
def do_s (st : InterpState) : InterpState × List DeviceCall :=
  do_S (do_h st)

/-- Source `do_f`: fill (`paint_path(gs, False, True, False, curpath)`) and clear
`curpath`. -/
def do_f (st : InterpState) : InterpState × List DeviceCall :=
  ({ st with curpath := [] },
   [DeviceCall.paint_path st.graphicstate false true false st.curpath])

/-- Source `do_F` (obsolete fill): a no-op in the source - the body is empty. -/
def do_F (st : InterpState) : InterpState × List DeviceCall :=
  (st, [])

/-- Source `do_f_a` (`f*`): even-odd fill and clear `curpath`. -/
def do_f_a (st : InterpState) : InterpState × List DeviceCall :=
  ({ st with curpath := [] },
   [DeviceCall.paint_path st.graphicstate false true true st.curpath])

/-- Source `do_B`: fill and stroke, then clear `curpath`. -/
def do_B (st : InterpState) : InterpState × List DeviceCall :=
  ({ st with curpath := [] },
   [DeviceCall.paint_path st.graphicstate true true false st.curpath])

/-- Source `do_B_a` (`B*`): even-odd fill and stroke, then clear `curpath`. -/
def do_B_a (st : InterpState) : InterpState × List DeviceCall :=
  ({ st with curpath := [] },
   [DeviceCall.paint_path st.graphicstate true true true st.curpath])

/-- Source `do_b`: close, then fill and stroke (`do_h(); do_B()`). -/
def do_b (st : InterpState) : InterpState × List DeviceCall :=
  do_B (do_h st)

/-- Source `do_b_a` (`b*`): close, then even-odd fill and stroke. -/
def do_b_a (st : InterpState) : InterpState × List DeviceCall :=
  do_B_a (do_h st)

/-- Source `do_n`: end the path without painting; just clear `curpath`
(no device call is made). -/
def do_n (st : InterpState) : InterpState :=
  { st with curpath := [] }

/-- Source `do_CS`: set the stroking color space from `csmap`; a missing name is
ignored in lenient mode (strict mode raises `PDFInterpreterError`). -/
def do_CS (ctx : Ctx) (name : String) (st : InterpState) : InterpState :=
  { st with scs :=
      match lookupD ctx.csmap name with
      | some cs => some cs
      | none => st.scs }

/-- Source `do_cs`: set the non-stroking color space from `csmap`; a missing
name is ignored in lenient mode. -/
def do_cs (ctx : Ctx) (name : String) (st : InterpState) : InterpState :=
  { st with ncs :=
      match lookupD ctx.csmap name with
      | some cs => some cs
      | none => st.ncs }

/-- Source `do_G`: set the stroking gray level and color space.  `csmap` always
contains the predefined DeviceGray entry; a missing key would be an
uncaught `KeyError` in the source and is modelled as leaving `scs`
unset. -/
def do_G (ctx : Ctx) (gray : PDFObj) (st : InterpState) : InterpState :=
  { st with
    graphicstate := { st.graphicstate with scolor := some (.scalar gray) },
    scs := lookupD ctx.csmap "DeviceGray" }

/-- Source `do_g`: set the non-stroking gray level and color space. -/
def do_g (ctx : Ctx) (gray : PDFObj) (st : InterpState) : InterpState :=
  { st with
    graphicstate := { st.graphicstate with ncolor := some (.scalar gray) },
    ncs := lookupD ctx.csmap "DeviceGray" }

/-- Source `do_RG`: set the stroking RGB color and color space. -/
def do_RG (ctx : Ctx) (r g b : PDFObj) (st : InterpState) : InterpState :=
  { st with
    graphicstate := { st.graphicstate with scolor := some (.rgb r g b) },
    scs := lookupD ctx.csmap "DeviceRGB" }

/-- Source `do_rg`: set the non-stroking RGB color and color space. -/
def do_rg (ctx : Ctx) (r g b : PDFObj) (st : InterpState) : InterpState :=
  { st with
    graphicstate := { st.graphicstate with ncolor := some (.rgb r g b) },
    ncs := lookupD ctx.csmap "DeviceRGB" }

/-- Source `do_K`: set the stroking CMYK color and color space. -/
def do_K (ctx : Ctx) (c m y k : PDFObj) (st : InterpState) : InterpState :=
  { st with
    graphicstate := { st.graphicstate with scolor := some (.cmyk c m y k) },
    scs := lookupD ctx.csmap "DeviceCMYK" }

/-- Source `do_k`: set the non-stroking CMYK color and color space. -/
def do_k (ctx : Ctx) (c m y k : PDFObj) (st : InterpState) : InterpState :=
  { st with
    graphicstate := { st.graphicstate with ncolor := some (.cmyk c m y k) },
    ncs := lookupD ctx.csmap "DeviceCMYK" }

/-- The operand count used by `do_SCN` / `do_scn`: the current color
space's `ncomponents`, or the lenient fallback `1` when no color space is
set (strict mode raises `PDFInterpreterError` in that branch). -/
def scnComponents : Option PDFColorSpace → Nat
  | some cs => cs.ncomponents
  | none => 1

/-- Source `do_SCN`: pop `scnComponents scs` operands off `argstack` and store
them as the stroking color. -/
def do_SCN (st : InterpState) : InterpState :=
  { st with
    graphicstate := { st.graphicstate with
      scolor := some (.vec (popN st.argstack (scnComponents st.scs)).1) },
    argstack := (popN st.argstack (scnComponents st.scs)).2 }

/-- Source `do_scn`: pop `scnComponents ncs` operands off `argstack` and store
them as the non-stroking color. -/
def do_scn (st : InterpState) : InterpState :=
  { st with
    graphicstate := { st.graphicstate with
      ncolor := some (.vec (popN st.argstack (scnComponents st.ncs)).1) },
    argstack := (popN st.argstack (scnComponents st.ncs)).2 }

/-- Source `do_BT`: reset the text matrix and line matrix. -/
def do_BT (st : InterpState) : InterpState :=
  { st with textstate := st.textstate.reset }

/-- Source `do_MP`: marked-content point. -/
def do_MP (tag : PDFObj) : List DeviceCall :=
  [DeviceCall.do_tag tag none]

/-- Source `do_DP`: marked-content point with property list. -/
def do_DP (tag props : PDFObj) : List DeviceCall :=
  [DeviceCall.do_tag tag (some props)]

/-- Source `do_BMC`: begin marked-content sequence. -/
def do_BMC (tag : PDFObj) : List DeviceCall :=
  [DeviceCall.begin_tag tag none]

/-- Source `do_BDC`: begin marked-content sequence with property list. -/
def do_BDC (tag props : PDFObj) : List DeviceCall :=
  [DeviceCall.begin_tag tag (some props)]

/-- Source `do_EMC`: end marked-content sequence. -/
def do_EMC : List DeviceCall :=
  [DeviceCall.end_tag]

/-- Source `do_Tc`: set the character spacing. -/
def do_Tc (space : ℚ) (st : InterpState) : InterpState :=
  { st with textstate := { st.textstate with charspace := space } }

/-- Source `do_Tw`: set the word spacing. -/
def do_Tw (space : ℚ) (st : InterpState) : InterpState :=
  { st with textstate := { st.textstate with wordspace := space } }

/-- Source `do_Tz`: set the horizontal scaling. -/
def do_Tz (scale : ℚ) (st : InterpState) : InterpState :=
  { st with textstate := { st.textstate with scaling := scale } }

/-- Source `do_TL`: set the leading to the NEGATED operand. -/
def do_TL (leading : ℚ) (st : InterpState) : InterpState :=
  { st with textstate := { st.textstate with leading := -leading } }

/-- Source `do_Tf`: resolve the font id in `fontmap` and set the font size; a
missing id yields the resource manager's default font in lenient mode
(strict mode raises `PDFInterpreterError`). -/
def do_Tf (ctx : Ctx) (fontid : String) (fontsize : ℚ) (st : InterpState) :
    InterpState :=
  { st with textstate := { st.textstate with
      font := some ((lookupD ctx.fontmap fontid).getD defaultFont),
      fontsize := fontsize } }

/-- Source `do_Tr`: set the text rendering mode. -/
def do_Tr (render : ℚ) (st : InterpState) : InterpState :=
  { st with textstate := { st.textstate with render := render } }

/-- Source `do_Ts`: set the text rise. -/
def do_Ts (rise : ℚ) (st : InterpState) : InterpState :=
  { st with textstate := { st.textstate with rise := rise } }

/-- Source `do_Td`: when both operands are numeric (`safe_float`), update the
text matrix by `e' = tx*a + ty*c + e`, `f' = tx*b + ty*d + f`; otherwise
leave the matrix (strict mode raises `PDFValueError`).  `linematrix` is
reset in every case. -/
def do_Td (tx ty : PDFObj) (st : InterpState) : InterpState :=
  { st with textstate :=
      { (match safe_float tx, safe_float ty with
         | some tx_, some ty_ =>
           match st.textstate.matrix with
           | (a, b, c, d, e, f) =>
             { st.textstate with
               matrix := (a, b, c, d, tx_ * a + ty_ * c + e,
                          tx_ * b + ty_ * d + f) }
         | _, _ => st.textstate) with
        linematrix := ((0 : ℚ), (0 : ℚ)) } }

/-- Source `do_TD`: like `do_Td`, and additionally set `leading := ty` whenever
`ty` is numeric. -/
def do_TD (tx ty : PDFObj) (st : InterpState) : InterpState :=
  { st with textstate :=
      { (match safe_float ty with
         | some ty_ =>
           { (match safe_float tx with
              | some tx_ =>
                match st.textstate.matrix with
                | (a, b, c, d, e, f) =>
                  { st.textstate with
                    matrix := (a, b, c, d, tx_ * a + ty_ * c + e,
                               tx_ * b + ty_ * d + f) }
              | none => st.textstate) with
             leading := ty_ }
         | none => st.textstate) with
        linematrix := ((0 : ℚ), (0 : ℚ)) } }

/-- Source `do_Tm`: set the text matrix absolutely and reset `linematrix`. -/
def do_Tm (a b c d e f : ℚ) (st : InterpState) : InterpState :=
  { st with textstate := { st.textstate with
      matrix := (a, b, c, d, e, f), linematrix := ((0 : ℚ), (0 : ℚ)) } }

/-- Source `do_T_a` (`T*`): move to the start of the next line,
`Tm := (a, b, c, d, leading*c + e, leading*d + f)`, and reset
`linematrix`. -/
def do_T_a (st : InterpState) : InterpState :=
  { st with textstate :=
      match st.textstate.matrix with
      | (a, b, c, d, e, f) =>
        { st.textstate with
          matrix := (a, b, c, d, st.textstate.leading * c + e,
                     st.textstate.leading * d + f),
          linematrix := ((0 : ℚ), (0 : ℚ)) } }

/-- Source `do_TJ`: when a font is set, call
`device.render_string(textstate, seq, ncs, graphicstate.copy(),
instruction_index)`; without a font, a no-op in lenient mode (strict
mode raises `PDFInterpreterError`).  The state is unchanged either
way. -/
def do_TJ (seq : List PDFObj) (instruction_index : Option Nat)
    (st : InterpState) : InterpState × List DeviceCall :=
  (st,
   match st.textstate.font with
   | none => []
   | some _ =>
     [DeviceCall.render_string st.textstate seq st.ncs
        st.graphicstate.copy instruction_index])

/-- Source `do_Tj`: show one string, delegated to `do_TJ([s])`. -/
def do_Tj (s : PDFObj) (instruction_index : Option Nat) (st : InterpState) :
    InterpState × List DeviceCall :=
  do_TJ [s] instruction_index st

/-- Source `do__q` (the `'` operator): `do_T_a()` then `do_TJ([s])`. -/
def do__q (s : PDFObj) (instruction_index : Option Nat) (st : InterpState) :
    InterpState × List DeviceCall :=
  do_TJ [s] instruction_index (do_T_a st)

/-- Source `do__w` (the `"` operator): `do_Tw(aw); do_Tc(ac); do_TJ([s])`.
Note that the source does NOT call `do_T_a` here, although its docstring
says "move to next line". -/
def do__w (aw ac : ℚ) (s : PDFObj) (instruction_index : Option Nat)
    (st : InterpState) : InterpState × List DeviceCall :=
  do_TJ [s] instruction_index (do_Tc ac (do_Tw aw st))

/-- The content-stream operators modelled by `exec`.  Operand tokens
(`push`) and the typed arguments of the operators mirror
`PDFPageInterpreter.execute`, which pops the declared number of operands
and invokes the handler; numeric operands of the matrix, path and
text-parameter operators are modelled as rationals, while `Td`/`TD`
(which guard their operands with `safe_float`) and the state setters that
store the operand verbatim take raw `PDFObj` values.  The show-text
operators carry the tokenizer's instruction index (`exec` models the
handler invocations themselves; the dispatch-level arity quirk of `'`
and `"`, whose `instruction_index` parameter the source's `execute`
fills from the operand stack because its special list spells their
method names `do_T_q` / `do_T_w` instead of `do__q` / `do__w`, lives in
`arity` and `dispatchStep` below).  `Do`, `sh`, `gs` and the
inline-image keywords (`BI`/`ID`/`EI`) are modelled separately. -/
inductive Op where
  | push (x : PDFObj)
  | q | Q
  | cm (a b c d e f : ℚ)
  | w (lw : ℚ)
  | J (x : PDFObj) | j (x : PDFObj) | M (x : PDFObj)
  | d (dash phase : PDFObj)
  | ri (x : PDFObj) | i (x : PDFObj)
  | m (x y : ℚ) | l (x y : ℚ)
  | c (x1 y1 x2 y2 x3 y3 : ℚ)
  | v (x2 y2 x3 y3 : ℚ) | y (x1 y1 x3 y3 : ℚ) | h
  | re (x y w h : ℚ)
  | S | s | f | F | f_a | B | B_a | b | b_a | n
  | W | W_a
  | CS (name : String) | cs (name : String)
  | G (x : PDFObj) | g (x : PDFObj)
  | RG (r g b : PDFObj) | rg (r g b : PDFObj)
  | K (c m y k : PDFObj) | k (c m y k : PDFObj)
  | SCN | scn | SC | sc
  | BT | ET | BX | EX
  | MP (tag : PDFObj) | DP (tag props : PDFObj)
  | BMC (tag : PDFObj) | BDC (tag props : PDFObj) | EMC
  | Tc (sp : ℚ) | Tw (sp : ℚ) | Tz (sc : ℚ) | TL (ld : ℚ)
  | Tf (fontid : String) (fontsize : ℚ)
  | Tr (x : ℚ) | Ts (x : ℚ)
  | Td (tx ty : PDFObj) | TD (tx ty : PDFObj)
  | Tm (a b c d e f : ℚ) | T_a
  | TJ (seq : List PDFObj) (ii : Option Nat)
  | Tj (s : PDFObj) (ii : Option Nat)
  | quote (s : PDFObj) (ii : Option Nat)
  | dquote (aw ac : ℚ) (s : PDFObj) (ii : Option Nat)

/-- One dispatch step of `PDFPageInterpreter.execute` (lenient mode):
operand tokens push onto `argstack`; operator tokens invoke their
handler.  `W`, `W*`, `ET`, `BX`, `EX` and `F` have empty bodies in the
source, and `gs`/`sh` are stubs; they leave the state unchanged. -/
def exec (ctx : Ctx) : Op → InterpState → InterpState × List DeviceCall
  | .push x, st => ({ st with argstack := st.argstack ++ [x] }, [])
  | .q, st => (do_q st, [])
  | .Q, st => do_Q st
  | .cm a b c d e f, st => do_cm a b c d e f st
  | .w lw, st => (do_w lw st, [])
  | .J x, st => (do_J x st, [])
  | .j x, st => (do_j x st, [])
  | .M x, st => (do_M x st, [])
  | .d dash phase, st => (do_d dash phase st, [])
  | .ri x, st => (do_ri x st, [])
  | .i x, st => (do_i x st, [])
  | .m x y, st => (do_m x y st, [])
  | .l x y, st => (do_l x y st, [])
  | .c x1 y1 x2 y2 x3 y3, st => (do_c x1 y1 x2 y2 x3 y3 st, [])
  | .v x2 y2 x3 y3, st => (do_v x2 y2 x3 y3 st, [])
  | .y x1 y1 x3 y3, st => (do_y x1 y1 x3 y3 st, [])
  | .h, st => (do_h st, [])
  | .re x y w h, st => (do_re x y w h st, [])
  | .S, st => do_S st
  | .s, st => do_s st
  | .f, st => do_f st
  | .F, st => do_F st
  | .f_a, st => do_f_a st
  | .B, st => do_B st
  | .B_a, st => do_B_a st
  | .b, st => do_b st
  | .b_a, st => do_b_a st
  | .n, st => (do_n st, [])
  | .W, st => (st, [])
  | .W_a, st => (st, [])
  | .CS name, st => (do_CS ctx name st, [])
  | .cs name, st => (do_cs ctx name st, [])
  | .G x, st => (do_G ctx x st, [])
  | .g x, st => (do_g ctx x st, [])
  | .RG r g b, st => (do_RG ctx r g b st, [])
  | .rg r g b, st => (do_rg ctx r g b st, [])
  | .K c m y k, st => (do_K ctx c m y k st, [])
  | .k c m y k, st => (do_k ctx c m y k st, [])
  | .SCN, st => (do_SCN st, [])
  | .scn, st => (do_scn st, [])
  | .SC, st => (do_SCN st, [])
  | .sc, st => (do_scn st, [])
  | .BT, st => (do_BT st, [])
  | .ET, st => (st, [])
  | .BX, st => (st, [])
  | .EX, st => (st, [])
  | .MP tag, st => (st, do_MP tag)
  | .DP tag props, st => (st, do_DP tag props)
  | .BMC tag, st => (st, do_BMC tag)
  | .BDC tag props, st => (st, do_BDC tag props)
  | .EMC, st => (st, do_EMC)
  | .Tc sp, st => (do_Tc sp st, [])
  | .Tw sp, st => (do_Tw sp st, [])
  | .Tz sc, st => (do_Tz sc st, [])
  | .TL ld, st => (do_TL ld st, [])
  | .Tf fontid fontsize, st => (do_Tf ctx fontid fontsize st, [])
  | .Tr x, st => (do_Tr x st, [])
  | .Ts x, st => (do_Ts x st, [])
  | .Td tx ty, st => (do_Td tx ty st, [])
  | .TD tx ty, st => (do_TD tx ty st, [])
  | .Tm a b c d e f, st => (do_Tm a b c d e f st, [])
  | .T_a, st => (do_T_a st, [])
  | .TJ seq ii, st => do_TJ seq ii st
  | .Tj s ii, st => do_Tj s ii st
  | .quote s ii, st => do__q s ii st
  | .dquote aw ac s ii, st => do__w aw ac s ii st

/-- Execute a list of operators in stream order, concatenating the
device-call traces. -/
def execList (ctx : Ctx) : List Op → InterpState → InterpState × List DeviceCall
  | [], st => (st, [])
  | op :: ops, st =>
    ((execList ctx ops (exec ctx op st).1).1,
     (exec ctx op st).2 ++ (execList ctx ops (exec ctx op st).1).2)

/-- The resolved resource dictionary as `init_resources` reads it: the
`ColorSpace` subdictionary (each entry already put through
`get_colorspace`, which yields `none` for an unrecognized space), the
`Font` subdictionary (each spec already put through
`rsrcmgr.get_font`) and the `XObject` names.  Parsing and reference
resolution (`dict_value`, `resolve1`, `stream_value`) belong to the
external `pdfminer.pdftypes` and are below this model's level. -/
structure Resources where
  colorSpaces : List (String × Option PDFColorSpace)
  fonts : List (String × PDFFont)
  xobjects : List String

/-- Emptiness of a resource dictionary (Python truthiness of the dict
read by `do_Do`). -/
def Resources.isEmpty (r : Resources) : Bool :=
  r.colorSpaces.isEmpty && r.fonts.isEmpty && r.xobjects.isEmpty

/-- The `csmap` built by `init_resources`: a copy of
`PREDEFINED_COLORSPACE` into which each recognized page `ColorSpace`
entry is inserted. -/
def init_csmap (entries : List (String × Option PDFColorSpace)) :
    List (String × PDFColorSpace) :=
  entries.foldl
    (fun m p =>
      match p.2 with
      | some cs => dictInsert m p.1 cs
      | none => m)
    PREDEFINED_COLORSPACE

/-- The per-invocation context produced by `init_resources`. -/
def ctxOfResources (r : Resources) : Ctx :=
  { csmap := init_csmap r.colorSpaces, fontmap := r.fonts }

/-- Source `init_state(ctm)`: fresh text and graphic states, empty stacks and
path, `device.set_ctm(ctm)`, and `scs = ncs = ` the first entry of
`csmap` (which is never empty, since it starts as a copy of the
predefined table). -/
def init_state (ctx : Ctx) (ctm : Matrix) : InterpState × List DeviceCall :=
  ({ ctm := ctm,
     textstate := PDFTextState.init,
     graphicstate := PDFGraphicState.init,
     gstack := [],
     curpath := [],
     argstack := [],
     scs := ctx.csmap.head?.map (fun p => p.2),
     ncs := ctx.csmap.head?.map (fun p => p.2) },
   [DeviceCall.set_ctm ctm])

/-- Source `render_contents(resources, streams, ctm)`: `init_resources`,
`init_state(ctm)`, then `execute` on the stream's operators (tokenizing
the streams into `Op` values is the content parser's job and is
abstracted here). -/
def render_contents (r : Resources) (content : List Op) (ctm : Matrix) :
    InterpState × List DeviceCall :=
  ((execList (ctxOfResources r) content (init_state (ctxOfResources r) ctm).1).1,
   (init_state (ctxOfResources r) ctm).2 ++
     (execList (ctxOfResources r) content (init_state (ctxOfResources r) ctm).1).2)

/-- XObject subtypes distinguished by `do_Do`. -/
inductive XObjSubtype where
  | form
  | image
  | other

/-- An entry of `xobjmap`: the already-resolved stream attributes read by
`do_Do` (`Subtype`, `BBox`, `Matrix`, `Resources`, `Width`, `Height`)
together with its content, tokenized into operators. -/
structure XObject where
  subtype : XObjSubtype
  bbox : Option Rect
  matrix : Option Matrix
  resources : Option Resources
  width : Option ℚ
  height : Option ℚ
  content : List Op

/-- The `Resources` fallback of `do_Do`: `xobj.get("Resources")` is used
when present and non-empty (Python truthiness), the parent interpreter's
resources otherwise (PDF 1.1 legacy). -/
def resolveResources (xobjres : Option Resources) (parent : Resources) :
    Resources :=
  match xobjres with
  | some r => if r.isEmpty then parent else r
  | none => parent

/-- Source `do_Do`: invoke a named XObject.  An unknown name is ignored in
lenient mode (strict mode raises `PDFInterpreterError`).  A Form with a
`BBox` is rendered by a duplicate interpreter (sharing device and
resource manager) between `begin_figure` and `end_figure`, with CTM
`mult_matrix(matrix, parent.ctm)`; an Image with `Width` and `Height` is
emitted via `render_image`; anything else is unsupported and ignored. -/
def do_Do (xobjmap : List (String × XObject)) (parentRes : Resources)
    (xobjid : String) (st : InterpState) : List DeviceCall :=
  match lookupD xobjmap xobjid with
  | none => []
  | some xobj =>
    match xobj.subtype, xobj.bbox with
    | XObjSubtype.form, some bbox =>
      DeviceCall.begin_figure xobjid bbox (xobj.matrix.getD MATRIX_IDENTITY)
        :: (render_contents (resolveResources xobj.resources parentRes)
              xobj.content
              (mult_matrix (xobj.matrix.getD MATRIX_IDENTITY) st.ctm)).2
        ++ [DeviceCall.end_figure xobjid]
    | XObjSubtype.form, none => []
    | XObjSubtype.image, _ =>
      match xobj.width, xobj.height with
      | some _, some _ =>
        [DeviceCall.begin_figure xobjid ((0 : ℚ), (0 : ℚ), (1 : ℚ), (1 : ℚ))
           MATRIX_IDENTITY,
         DeviceCall.render_image xobjid,
         DeviceCall.end_figure xobjid]
      | _, _ => []
    | XObjSubtype.other, _ => []

/-- Python `bytes.isspace` on a single byte: space, tab, linefeed,
carriage return, vertical tab, form feed. -/
def isspaceByte (c : Nat) : Bool :=
  c = 32 || c = 9 || c = 10 || c = 13 || c = 11 || c = 12

/-- The scanning loop of `PDFContentParser.get_inline_data`, byte by
byte over a single logical input (the source reads the same bytes
through a buffer).  `i` counts how much of the terminator has been
matched; `i = target.length` additionally requires one whitespace byte;
the loop exits at `i = target.length + 1` with all consumed bytes
(terminator and trailing whitespace byte included) accumulated in `acc`.
Running out of input while still scanning is the source's uncaught
`PSEOF`, modelled as `none`. -/
def inlineScan (target : List Nat) : List Nat → Nat → List Nat →
    Option (List Nat)
  | [], i, acc =>
    if i > target.length then some acc else none
  | chr :: rest, i, acc =>
    if i > target.length then some acc
    else if i = 0 then
      inlineScan target rest (if chr = target.headD 0 then 1 else 0)
        (acc ++ [chr])
    else if (decide (target.length ≤ i) && isspaceByte chr) ||
        (decide (i < target.length) && decide (target.getD i 0 = chr)) then
      inlineScan target rest (i + 1) (acc ++ [chr])
    else
      inlineScan target rest 0 (acc ++ [chr])

/-- The trailing end-of-line strip of `get_inline_data`: the regex
substitution removing one final CRLF pair, or one final CR, or one final
LF. -/
def stripTrailingEOL (data : List Nat) : List Nat :=
  match data.reverse with
  | 10 :: 13 :: rest => rest.reverse
  | 10 :: rest => rest.reverse
  | 13 :: rest => rest.reverse
  | _ => data

/-- Source `PDFContentParser.get_inline_data(pos, target)`: scan for the
terminator, drop the matched terminator and the witnessing whitespace
byte (`data[: -(len(target) + 1)]`), then strip one trailing
end-of-line. -/
def get_inline_data (target : List Nat) (input : List Nat) :
    Option (List Nat) :=
  (inlineScan target input 0 []).map
    (fun data =>
      stripTrailingEOL (data.take (data.length - (target.length + 1))))

/-- Modelled from the spec: `LITERALS_ASCII85_DECODE` of
`pdfminer.pdftypes` (not under `src/`): the filter names recognizing the
ASCII85 filter, `/A85` or `/ASCII85Decode`. -/
def LITERALS_ASCII85_DECODE : List String := ["ASCII85Decode", "A85"]

/-- The byte pair of the keyword `EI`. -/
def EIbytes : List Nat := [69, 73]

/-- The ASCII85 terminator bytes of the tilde and greater-than signs. -/
def A85term : List Nat := [126, 62]

/-- The terminator chosen by `do_keyword` from the inline dictionary's
`F` entry: `~>` when the first filter is an ASCII85 literal, `EI`
otherwise.  A `PSLiteral` filter is wrapped into a one-element list
first; the head of an array (or the first byte of a byte string, which
Python indexes like a sequence) that is not an ASCII85 literal keeps the
default `EI`.  A non-subscriptable filter (`filter[0]` on a number or
null) or an empty array/byte string would raise an uncaught
`TypeError` / `IndexError` in the source, modelled as `none`. -/
def inlineEOS : Option PDFObj → Option (List Nat)
  | none => some EIbytes
  | some (PDFObj.name n) =>
    some (if n ∈ LITERALS_ASCII85_DECODE then A85term else EIbytes)
  | some (PDFObj.arr (PDFObj.name n :: _)) =>
    some (if n ∈ LITERALS_ASCII85_DECODE then A85term else EIbytes)
  | some (PDFObj.arr (_ :: _)) => some EIbytes
  | some (PDFObj.arr []) => none
  | some (PDFObj.str (_ :: _)) => some EIbytes
  | some (PDFObj.str []) => none
  | some _ => none

/-- Tokens pushed by `PDFContentParser.do_keyword` after `ID`: the
captured `PDFStream` and, only when the terminator was `EI`, the `EI`
keyword. -/
inductive Pushed where
  | stream (dict : List (String × PDFObj)) (data : List Nat)
  | keywordEI

/-- The `ID` branch of `PDFContentParser.do_keyword`, starting from the
inline dictionary accumulated between `BI` and `ID` (already paired into
name-keyed entries by `choplist`/`literal_name`), and the raw bytes
following `ID `: choose the terminator from the `F` entry, capture the
inline data, append the terminator back onto the payload when it is
`~>` ("it may be necessary for decoding"), push the stream, and push an
`EI` keyword only when the terminator was `EI` ("otherwise it is still
in the stream"). -/
def do_keyword_ID (dict : List (String × PDFObj)) (input : List Nat) :
    Option (List Pushed) :=
  match inlineEOS (lookupD dict "F") with
  | none => none
  | some eos =>
    match get_inline_data eos input with
    | none => none
    | some data0 =>
      some (Pushed.stream dict (if eos ≠ EIbytes then data0 ++ eos else data0)
              :: (if eos = EIbytes then [Pushed.keywordEI] else []))

/-- The operand count (arity) each handler of
`PDFPageInterpreter` declares, as computed by `execute` from
`func.__code__.co_argcount - 1`, minus one more for the handlers the
special list `[do_TJ, do_Tj, do_T_w, do_T_q]` matches.  NOTE: the
generated method names for the keywords `'` and `"` are `do__q` and
`do__w` (double underscore), which the special list's `do_T_q` /
`do_T_w` do NOT match, so only `TJ` and `Tj` get the reduction: `'`
dispatches with arity 2 (its `instruction_index` parameter is filled
from the operand stack) and `"` with arity 4.  Keyword spelling: `*`,
`'` and `"` as in the content stream.  `none` means no handler exists
(an unknown operator). -/
def arity (opname : String) : Option Nat :=
  if opname ∈ ["q", "Q", "h", "S", "s", "f", "F", "f*", "B", "B*", "b", "b*",
      "n", "W", "W*", "SCN", "scn", "SC", "sc", "BT", "ET", "BX", "EX",
      "EMC", "T*", "BI", "ID"] then
    some 0
  else if opname ∈ ["w", "J", "j", "M", "ri", "i", "gs", "CS", "cs", "G", "g",
      "sh", "MP", "BMC", "Tc", "Tw", "Tz", "TL", "Tr", "Ts", "TJ", "Tj",
      "EI", "Do"] then
    some 1
  else if opname ∈ ["d", "m", "l", "DP", "BDC", "Tf", "Td", "TD", "'"] then
    some 2
  else if opname ∈ ["RG", "rg"] then
    some 3
  else if opname ∈ ["v", "y", "re", "K", "k", "\x22"] then
    some 4
  else if opname ∈ ["cm", "c", "Tm"] then
    some 6
  else
    none

/-- The dispatch decision `execute` makes for one operator keyword. -/
inductive DispatchResult where
  | invoked (args : List PDFObj)
  | skipped
  | ignoredUnknown

/-- The operator-dispatch step of `PDFPageInterpreter.execute`: look the
keyword up; with no handler, ignore it (strict mode raises
`PDFInterpreterError`); with arity `0`, invoke with no arguments; with
arity `n > 0`, pop `n` operands and invoke only when exactly `n` were
available - in BOTH modes a shorter stack means the handler is simply
not called (`if len(args) == nargs` has no `else` branch and no strict
check). -/
def dispatchStep (strict : Bool) (opname : String) (argstack : List PDFObj) :
    Except String (DispatchResult × List PDFObj) :=
  match arity opname with
  | none =>
    if strict then Except.error "Unknown operator"
    else Except.ok (DispatchResult.ignoredUnknown, argstack)
  | some 0 => Except.ok (DispatchResult.invoked [], argstack)
  | some n =>
    if (popN argstack n).1.length = n then
      Except.ok (DispatchResult.invoked (popN argstack n).1, (popN argstack n).2)
    else
      Except.ok (DispatchResult.skipped, (popN argstack n).2)

/-! Shared helper objects and lemmas. -/

/-- An empty resource dictionary. -/
def emptyResources : Resources := ⟨[], [], []⟩

/-- The context of a page with no resources: the predefined color
spaces and no fonts. -/
def ctx0 : Ctx := ctxOfResources emptyResources

/-- The state `init_state` produces at the identity CTM. -/
def st0 : InterpState := (init_state ctx0 MATRIX_IDENTITY).1

/-- The state `st0` with one path segment appended. -/
def stPath : InterpState := { st0 with curpath := [PathSegment.m 0 0] }

/-- The state `st0` after a leading of `5` and a font have been set. -/
def stT : InterpState :=
  { st0 with textstate :=
      { st0.textstate with leading := 5, font := some defaultFont } }

theorem textstate_copy_eq (ts : PDFTextState) : ts.copy = ts := rfl

theorem graphicstate_copy_eq (gs : PDFGraphicState) : gs.copy = gs := rfl

theorem do_Q_nil (st : InterpState) (h : st.gstack = []) :
    do_Q st = (st, []) := by
  obtain ⟨c, t, g, gst, cp, ar, s1, n1⟩ := st
  simp only at h
  subst h
  rfl

theorem do_Q_cons (st : InterpState) (sctm : Matrix) (ts : PDFTextState)
    (gs : PDFGraphicState) (rest : List (Matrix × PDFTextState × PDFGraphicState))
    (h : st.gstack = (sctm, ts, gs) :: rest) :
    do_Q st =
      ({ st with
          ctm := sctm, textstate := ts, graphicstate := gs,
          gstack := rest },
       [DeviceCall.set_ctm sctm]) := by
  obtain ⟨c, t, g, gst, cp, ar, s1, n1⟩ := st
  simp only at h
  subst h
  rfl

/-- Every operator other than `q` and `Q` leaves `gstack` unchanged. -/
theorem exec_gstack (ctx : Ctx) (op : Op) (hq : op ≠ Op.q) (hQ : op ≠ Op.Q)
    (st : InterpState) : (exec ctx op st).1.gstack = st.gstack := by
  cases op <;> first
    | exact absurd rfl hq
    | exact absurd rfl hQ
    | rfl

/-- Executing an appended list is executing the parts in order
(state component). -/
theorem execList_fst_append (ctx : Ctx) (xs ys : List Op) :
    ∀ st : InterpState,
      (execList ctx (xs ++ ys) st).1 =
        (execList ctx ys (execList ctx xs st).1).1 := by
  induction xs with
  | nil => intro st; rfl
  | cons op ops ih =>
    intro st
    simp only [List.cons_append, execList]
    exact ih (exec ctx op st).1

/-- Operator sequences whose `q`/`Q` pairs nest properly: empty, a
non-`q`/`Q` operator followed by a balanced tail, or a `q ... Q` pair
with balanced inside and balanced tail. -/
inductive Balanced : List Op → Prop where
  | nil : Balanced []
  | other (op : Op) (ops : List Op) (hq : op ≠ Op.q) (hQ : op ≠ Op.Q)
      (h : Balanced ops) : Balanced (op :: ops)
  | pair (inner rest : List Op) (hi : Balanced inner) (hr : Balanced rest) :
      Balanced (Op.q :: inner ++ Op.Q :: rest)

/-- Executing a balanced operator sequence restores `gstack`. -/
theorem balanced_gstack (ctx : Ctx) {ops : List Op} (hb : Balanced ops) :
    ∀ st : InterpState, (execList ctx ops st).1.gstack = st.gstack := by
  induction hb with
  | nil => intro st; rfl
  | other op ops hq hQ h ih =>
    intro st
    simp only [execList]
    rw [ih, exec_gstack ctx op hq hQ]
  | pair inner rest hi hr ih_inner ih_rest =>
    intro st
    simp only [execList, List.append_eq]
    rw [execList_fst_append]
    have h1 : (exec ctx Op.q st).1.gstack = get_current_state st :: st.gstack := rfl
    have h2 : (execList ctx inner (exec ctx Op.q st).1).1.gstack =
        get_current_state st :: st.gstack := by
      rw [ih_inner, h1]
    simp only [execList]
    rw [show exec ctx Op.Q (execList ctx inner (exec ctx Op.q st).1).1 =
          do_Q (execList ctx inner (exec ctx Op.q st).1).1 from rfl]
    rw [do_Q_cons _ st.ctm st.textstate.copy st.graphicstate.copy st.gstack h2]
    rw [ih_rest]

/-! Claim theorems. -/

/-- C4: for every interpreter state, executing `q` and later the
matching `Q` (with any modelled operators in between whose save/restore
pairs nest) restores `ctm`, `textstate` and `graphicstate` to their
values at the `q`, and the `Q` additionally calls `device.set_ctm` with
the restored CTM. -/
theorem qQ_roundtrip (ctx : Ctx) (ops : List Op) (st : InterpState)
    (hb : Balanced ops) :
    (exec ctx Op.Q (execList ctx ops (exec ctx Op.q st).1).1).1.ctm = st.ctm ∧
    (exec ctx Op.Q (execList ctx ops (exec ctx Op.q st).1).1).1.textstate =
      st.textstate ∧
    (exec ctx Op.Q (execList ctx ops (exec ctx Op.q st).1).1).1.graphicstate =
      st.graphicstate ∧
    (exec ctx Op.Q (execList ctx ops (exec ctx Op.q st).1).1).1.gstack =
      st.gstack ∧
    (exec ctx Op.Q (execList ctx ops (exec ctx Op.q st).1).1).2 =
      [DeviceCall.set_ctm st.ctm] := by
  have h1 : (exec ctx Op.q st).1.gstack = get_current_state st :: st.gstack := rfl
  have h2 : (execList ctx ops (exec ctx Op.q st).1).1.gstack =
      get_current_state st :: st.gstack := by
    rw [balanced_gstack ctx hb, h1]
  have h3 : exec ctx Op.Q (execList ctx ops (exec ctx Op.q st).1).1 =
      do_Q (execList ctx ops (exec ctx Op.q st).1).1 := rfl
  rw [h3, do_Q_cons _ st.ctm st.textstate.copy st.graphicstate.copy st.gstack h2]
  exact ⟨rfl, textstate_copy_eq st.textstate,
    graphicstate_copy_eq st.graphicstate, rfl, rfl⟩

/-- Witness for C4 at a concrete input: the balanced sequence
`cm 2 0 0 2 0 0; w 5` between `q` and `Q` on `st0`. -/
theorem qQ_roundtrip_witness :
    (exec ctx0 Op.Q (execList ctx0 [Op.cm 2 0 0 2 0 0, Op.w 5]
        (exec ctx0 Op.q st0).1).1).1.ctm = st0.ctm ∧
    (exec ctx0 Op.Q (execList ctx0 [Op.cm 2 0 0 2 0 0, Op.w 5]
        (exec ctx0 Op.q st0).1).1).1.textstate = st0.textstate ∧
    (exec ctx0 Op.Q (execList ctx0 [Op.cm 2 0 0 2 0 0, Op.w 5]
        (exec ctx0 Op.q st0).1).1).1.graphicstate = st0.graphicstate ∧
    (exec ctx0 Op.Q (execList ctx0 [Op.cm 2 0 0 2 0 0, Op.w 5]
        (exec ctx0 Op.q st0).1).1).1.gstack = st0.gstack ∧
    (exec ctx0 Op.Q (execList ctx0 [Op.cm 2 0 0 2 0 0, Op.w 5]
        (exec ctx0 Op.q st0).1).1).2 = [DeviceCall.set_ctm st0.ctm] :=
  qQ_roundtrip ctx0 [Op.cm 2 0 0 2 0 0, Op.w 5] st0
    (Balanced.other _ _ (by simp) (by simp)
      (Balanced.other _ _ (by simp) (by simp) Balanced.nil))

/-- C9: executing `Q` on an empty `gstack` is a no-op: the whole state
is unchanged (in particular `ctm`, `textstate`, `graphicstate` and
`gstack`) and no device call is made. -/
theorem Q_empty_noop (ctx : Ctx) (st : InterpState) (h : st.gstack = []) :
    exec ctx Op.Q st = (st, []) := by
  rw [show exec ctx Op.Q st = do_Q st from rfl, do_Q_nil st h]

/-- Witness for C9 at the concrete initial state, whose `gstack` is
empty. -/
theorem Q_empty_noop_witness : exec ctx0 Op.Q st0 = (st0, []) :=
  Q_empty_noop ctx0 st0 rfl

/-- C7: `re x y w h` appends exactly
`m(x,y); l(x+w,y); l(x+w,y+h); l(x,y+h); h` to the (empty) current path,
and a following `S` paints exactly that path with
`stroke = true, fill = false, evenodd = false`, after which `curpath` is
empty. -/
theorem re_S_rect (ctx : Ctx) (x y w h : ℚ) (st : InterpState)
    (hcur : st.curpath = []) :
    (exec ctx (Op.re x y w h) st).1.curpath =
      [PathSegment.m x y, PathSegment.l (x + w) y,
       PathSegment.l (x + w) (y + h), PathSegment.l x (y + h),
       PathSegment.h] ∧
    (exec ctx Op.S (exec ctx (Op.re x y w h) st).1).2 =
      [DeviceCall.paint_path st.graphicstate true false false
        [PathSegment.m x y, PathSegment.l (x + w) y,
         PathSegment.l (x + w) (y + h), PathSegment.l x (y + h),
         PathSegment.h]] ∧
    (exec ctx Op.S (exec ctx (Op.re x y w h) st).1).1.curpath = [] := by
  refine ⟨?_, ?_, rfl⟩
  · show st.curpath ++ _ = _
    rw [hcur]
    rfl
  · show [DeviceCall.paint_path st.graphicstate true false false
      (st.curpath ++ _)] = _
    rw [hcur]
    rfl

/-- Witness for C7 at the concrete input `re 10 20 30 40` on `st0`
(scenario S1 of the spec). -/
theorem re_S_rect_witness :
    (exec ctx0 (Op.re 10 20 30 40) st0).1.curpath =
      [PathSegment.m 10 20, PathSegment.l (10 + 30) 20,
       PathSegment.l (10 + 30) (20 + 40), PathSegment.l 10 (20 + 40),
       PathSegment.h] ∧
    (exec ctx0 Op.S (exec ctx0 (Op.re 10 20 30 40) st0).1).2 =
      [DeviceCall.paint_path st0.graphicstate true false false
        [PathSegment.m 10 20, PathSegment.l (10 + 30) 20,
         PathSegment.l (10 + 30) (20 + 40), PathSegment.l 10 (20 + 40),
         PathSegment.h]] ∧
    (exec ctx0 Op.S (exec ctx0 (Op.re 10 20 30 40) st0).1).1.curpath = [] :=
  re_S_rect ctx0 10 20 30 40 st0 rfl

/-- C8: starting from the identity text matrix, `Td tx1 ty1` followed by
`Td tx2 ty2` yields the same text matrix as the single
`Td (tx1+tx2) (ty1+ty2)`, the update rule being
`e' = tx*a + ty*c + e`, `f' = tx*b + ty*d + f`. -/
theorem Td_translation_compose (ctx : Ctx) (tx1 ty1 tx2 ty2 : ℚ)
    (st : InterpState) (h : st.textstate.matrix = MATRIX_IDENTITY) :
    (exec ctx (Op.Td (PDFObj.num tx2) (PDFObj.num ty2))
        (exec ctx (Op.Td (PDFObj.num tx1) (PDFObj.num ty1)) st).1).1.textstate.matrix =
      (exec ctx (Op.Td (PDFObj.num (tx1 + tx2)) (PDFObj.num (ty1 + ty2)))
        st).1.textstate.matrix := by
  simp only [exec, do_Td, safe_float, h, MATRIX_IDENTITY]
  ring_nf

/-- Witness for C8 at the concrete input `Td 72 720` then `Td 3 4` on
`st0` (whose text matrix is the identity). -/
theorem Td_translation_compose_witness :
    (exec ctx0 (Op.Td (PDFObj.num 3) (PDFObj.num 4))
        (exec ctx0 (Op.Td (PDFObj.num 72) (PDFObj.num 720)) st0).1).1.textstate.matrix =
      (exec ctx0 (Op.Td (PDFObj.num (72 + 3)) (PDFObj.num (720 + 4)))
        st0).1.textstate.matrix :=
  Td_translation_compose ctx0 72 720 3 4 st0 rfl

/-- C2 (counterexample): at a state with a non-empty path, the `F`
operator does NOT behave as the claim's table row `(stroke = F, fill = T,
evenodd = F)` says: it makes no `paint_path` call at all and does not
clear `curpath` (the source body of `do_F` is empty). -/
theorem F_claim_false :
    ¬ ((exec ctx0 Op.F stPath).2 =
         [DeviceCall.paint_path stPath.graphicstate false true false
            stPath.curpath] ∧
       (exec ctx0 Op.F stPath).1.curpath = []) := by
  intro hc
  have h1 : (exec ctx0 Op.F stPath).2 = [] := rfl
  rw [h1] at hc
  exact absurd hc.1 (by simp)

/-- C2 (amended): the painting operators `S`, `s`, `f`, `f*`, `B`, `B*`,
`b`, `b*` call `device.paint_path` with the table's flags (the
close-first variants appending a `h` segment beforehand) and then clear
`curpath`; `F` is a no-op (no call, path kept), and `n` clears `curpath`
without any device call. -/
theorem paint_operator_table (ctx : Ctx) (st : InterpState) :
    exec ctx Op.S st = ({ st with curpath := [] },
      [DeviceCall.paint_path st.graphicstate true false false st.curpath]) ∧
    exec ctx Op.s st = ({ st with curpath := [] },
      [DeviceCall.paint_path st.graphicstate true false false
        (st.curpath ++ [PathSegment.h])]) ∧
    exec ctx Op.f st = ({ st with curpath := [] },
      [DeviceCall.paint_path st.graphicstate false true false st.curpath]) ∧
    exec ctx Op.f_a st = ({ st with curpath := [] },
      [DeviceCall.paint_path st.graphicstate false true true st.curpath]) ∧
    exec ctx Op.B st = ({ st with curpath := [] },
      [DeviceCall.paint_path st.graphicstate true true false st.curpath]) ∧
    exec ctx Op.B_a st = ({ st with curpath := [] },
      [DeviceCall.paint_path st.graphicstate true true true st.curpath]) ∧
    exec ctx Op.b st = ({ st with curpath := [] },
      [DeviceCall.paint_path st.graphicstate true true false
        (st.curpath ++ [PathSegment.h])]) ∧
    exec ctx Op.b_a st = ({ st with curpath := [] },
      [DeviceCall.paint_path st.graphicstate true true true
        (st.curpath ++ [PathSegment.h])]) ∧
    exec ctx Op.F st = (st, []) ∧
    exec ctx Op.n st = ({ st with curpath := [] }, []) :=
  ⟨rfl, rfl, rfl, rfl, rfl, rfl, rfl, rfl, rfl, rfl⟩

/-- C3 (counterexample): in STRICT mode, dispatching `cm` (arity 6) on a
one-operand stack raises nothing: the dispatcher silently skips the
handler (and drains the stack), exactly as in lenient mode - the
`if len(args) == nargs` test in `execute` has no `else` and no strict
branch. -/
theorem strict_underflow_no_raise :
    dispatchStep true "cm" [PDFObj.num 1] =
      Except.ok (DispatchResult.skipped, []) := rfl

/-- C3 (amended): when a handler of arity `n > 0` meets an argument
stack with fewer than `n` operands, the handler is not invoked in
EITHER mode: the dispatcher consumes the available operands and skips
the operator, raising no error even when `strict` is set. -/
theorem underflow_skips_both_modes (strict : Bool) (opname : String)
    (n : Nat) (stack : List PDFObj) (ha : arity opname = some n)
    (h0 : 0 < n) (hlen : stack.length < n) :
    dispatchStep strict opname stack =
      Except.ok (DispatchResult.skipped, []) := by
  have hz : stack.length - n = 0 := Nat.sub_eq_zero_of_le (Nat.le_of_lt hlen)
  have hpop : popN stack n = (stack, []) := by
    rw [popN, if_neg (Nat.pos_iff_ne_zero.mp h0), hz]
    simp
  rw [dispatchStep, ha]
  match n, h0 with
  | Nat.succ k, _ =>
    simp only [hpop]
    rw [if_neg (Nat.ne_of_lt hlen)]

/-- Witness for C3's amended statement: strict dispatch of `Tf`
(arity 2) on an empty stack skips. -/
theorem underflow_skips_witness :
    dispatchStep true "Tf" [] = Except.ok (DispatchResult.skipped, []) :=
  underflow_skips_both_modes true "Tf" 2 [] rfl (by decide) (by decide)

/-- C1 (code bug): the `"` operator (`do__w`) is NOT `Tw aw; Tc ac; '`:
it never applies the `T*` leading update, although its docstring says
"move to next line, and show text".  At a state with leading `5`, the
`"` path leaves the text matrix at the identity and hands exactly that
un-advanced matrix to `device.render_string`, while `Tw 1; Tc 2; '`
advances the matrix by the leading. -/
theorem dquote_skips_leading_update :
    (exec ctx0 (Op.dquote 1 2 (PDFObj.str [65]) (some 7)) stT).1.textstate.matrix
        = MATRIX_IDENTITY ∧
    (exec ctx0 (Op.dquote 1 2 (PDFObj.str [65]) (some 7)) stT).2 =
      [DeviceCall.render_string
         { stT.textstate with wordspace := 1, charspace := 2 }
         [PDFObj.str [65]] stT.ncs stT.graphicstate (some 7)] ∧
    (exec ctx0 (Op.quote (PDFObj.str [65]) (some 7))
        (exec ctx0 (Op.Tc 2) (exec ctx0 (Op.Tw 1) stT).1).1).1.textstate.matrix
        = (1, 0, 0, 1, 5 * 0 + 0, 5 * 1 + 0) ∧
    ((1, 0, 0, 1, 5 * 0 + 0, 5 * 1 + 0) : Matrix) ≠ MATRIX_IDENTITY := by
  refine ⟨rfl, rfl, rfl, ?_⟩
  intro hc
  rw [MATRIX_IDENTITY, Prod.ext_iff, Prod.ext_iff, Prod.ext_iff, Prod.ext_iff,
    Prod.ext_iff] at hc
  have h5 : (5 : ℚ) * 1 + 0 = 0 := hc.2.2.2.2.2
  norm_num at h5

/-- C5: executing `Do` on a Form XObject with a `BBox` calls
`device.begin_figure(xobjid, bbox, M)` with `M` the XObject's matrix
(identity when absent), renders the content through a fresh
`render_contents` whose initial CTM is `mult(M, parent.ctm)` (announced
to the device by the child's `init_state`), then calls
`device.end_figure(xobjid)`; with no `Resources` entry the parent's
resources are used. -/
theorem Do_form_xobject (xmap : List (String × XObject))
    (parentRes : Resources) (xobjid : String) (xobj : XObject)
    (st : InterpState) (bbox : Rect)
    (hx : lookupD xmap xobjid = some xobj)
    (hsub : xobj.subtype = XObjSubtype.form)
    (hbb : xobj.bbox = some bbox) :
    do_Do xmap parentRes xobjid st =
      DeviceCall.begin_figure xobjid bbox (xobj.matrix.getD MATRIX_IDENTITY)
        :: (render_contents (resolveResources xobj.resources parentRes)
              xobj.content
              (mult_matrix (xobj.matrix.getD MATRIX_IDENTITY) st.ctm)).2
        ++ [DeviceCall.end_figure xobjid] ∧
    (render_contents (resolveResources xobj.resources parentRes) xobj.content
        (mult_matrix (xobj.matrix.getD MATRIX_IDENTITY) st.ctm)).2 =
      DeviceCall.set_ctm (mult_matrix (xobj.matrix.getD MATRIX_IDENTITY) st.ctm)
        :: (execList (ctxOfResources (resolveResources xobj.resources parentRes))
              xobj.content
              (init_state (ctxOfResources (resolveResources xobj.resources parentRes))
                 (mult_matrix (xobj.matrix.getD MATRIX_IDENTITY) st.ctm)).1).2 ∧
    (init_state (ctxOfResources (resolveResources xobj.resources parentRes))
        (mult_matrix (xobj.matrix.getD MATRIX_IDENTITY) st.ctm)).1.ctm =
      mult_matrix (xobj.matrix.getD MATRIX_IDENTITY) st.ctm ∧
    (xobj.resources = none →
      resolveResources xobj.resources parentRes = parentRes) := by
  obtain ⟨sub, bb, mat, res, wd, ht, content⟩ := xobj
  simp only at hsub hbb
  subst hsub
  subst hbb
  refine ⟨?_, rfl, rfl, ?_⟩
  · simp only [do_Do, hx]
  · intro hres
    simp only at hres
    subst hres
    rfl

/-- A concrete Form XObject: `BBox = (0,0,100,100)`,
`Matrix = (2,0,0,2,10,20)`, no own resources, content `m 1 1; l 2 2; S`
(scenario S5 of the spec). -/
def xobj0 : XObject :=
  { subtype := XObjSubtype.form,
    bbox := some ((0 : ℚ), (0 : ℚ), (100 : ℚ), (100 : ℚ)),
    matrix := some ((2 : ℚ), (0 : ℚ), (0 : ℚ), (2 : ℚ), (10 : ℚ), (20 : ℚ)),
    resources := none,
    width := none,
    height := none,
    content := [Op.m 1 1, Op.l 2 2, Op.S] }

/-- Witness for C5 at the concrete XObject `xobj0` under the name
`X1`. -/
theorem Do_form_xobject_witness :
    do_Do [("X1", xobj0)] emptyResources "X1" st0 =
      DeviceCall.begin_figure "X1" ((0 : ℚ), (0 : ℚ), (100 : ℚ), (100 : ℚ))
          (xobj0.matrix.getD MATRIX_IDENTITY)
        :: (render_contents (resolveResources xobj0.resources emptyResources)
              xobj0.content
              (mult_matrix (xobj0.matrix.getD MATRIX_IDENTITY) st0.ctm)).2
        ++ [DeviceCall.end_figure "X1"] ∧
    (render_contents (resolveResources xobj0.resources emptyResources)
        xobj0.content
        (mult_matrix (xobj0.matrix.getD MATRIX_IDENTITY) st0.ctm)).2 =
      DeviceCall.set_ctm (mult_matrix (xobj0.matrix.getD MATRIX_IDENTITY) st0.ctm)
        :: (execList (ctxOfResources (resolveResources xobj0.resources emptyResources))
              xobj0.content
              (init_state (ctxOfResources (resolveResources xobj0.resources emptyResources))
                 (mult_matrix (xobj0.matrix.getD MATRIX_IDENTITY) st0.ctm)).1).2 ∧
    (init_state (ctxOfResources (resolveResources xobj0.resources emptyResources))
        (mult_matrix (xobj0.matrix.getD MATRIX_IDENTITY) st0.ctm)).1.ctm =
      mult_matrix (xobj0.matrix.getD MATRIX_IDENTITY) st0.ctm ∧
    resolveResources xobj0.resources emptyResources = emptyResources := by
  obtain ⟨w1, w2, w3, w4⟩ :=
    Do_form_xobject [("X1", xobj0)] emptyResources "X1" xobj0 st0
      ((0 : ℚ), (0 : ℚ), (100 : ℚ), (100 : ℚ)) rfl rfl rfl
  exact ⟨w1, w2, w3, w4 rfl⟩

/-- C6: when the inline dictionary's `F` entry names an ASCII85 filter
(directly or as the head of a filter array), the scanner hunts for the
terminator `~>` and the pushed tokens are exactly one stream whose data
ends with the two bytes `~>` - no `EI` keyword is pushed; when the
terminator is the default `EI`, the `EI` keyword token is pushed right
after the stream. -/
theorem inline_image_terminator :
    (∀ (dict : List (String × PDFObj)) (input : List Nat) (n : String)
       (data0 : List Nat),
       (lookupD dict "F" = some (PDFObj.name n) ∨
        ∃ tl, lookupD dict "F" = some (PDFObj.arr (PDFObj.name n :: tl))) →
       n ∈ LITERALS_ASCII85_DECODE →
       inlineScan A85term input 0 [] = some data0 →
       do_keyword_ID dict input =
         some [Pushed.stream dict
           (stripTrailingEOL (data0.take (data0.length - (A85term.length + 1)))
             ++ A85term)] ∧
       ∀ out, do_keyword_ID dict input = some out →
         Pushed.keywordEI ∉ out) ∧
    (∀ (dict : List (String × PDFObj)) (input : List Nat) (data0 : List Nat),
       lookupD dict "F" = none →
       inlineScan EIbytes input 0 [] = some data0 →
       do_keyword_ID dict input =
         some [Pushed.stream dict
             (stripTrailingEOL (data0.take (data0.length - (EIbytes.length + 1)))),
           Pushed.keywordEI]) := by
  have hne : A85term ≠ EIbytes := by decide
  constructor
  · intro dict input n data0 hF hn hscan
    have heos : inlineEOS (lookupD dict "F") = some A85term := by
      rcases hF with hF | ⟨tl, hF⟩ <;>
        rw [hF] <;> simp only [inlineEOS, if_pos hn]
    have hmain : do_keyword_ID dict input =
        some [Pushed.stream dict
          (stripTrailingEOL (data0.take (data0.length - (A85term.length + 1)))
            ++ A85term)] := by
      simp only [do_keyword_ID, get_inline_data, heos, hscan, Option.map_some']
      rw [if_pos hne, if_neg hne]
    refine ⟨hmain, ?_⟩
    intro out hout
    rw [hmain] at hout
    cases hout
    simp
  · intro dict input data0 hF hscan
    have heos : inlineEOS (lookupD dict "F") = some EIbytes := by
      rw [hF]; rfl
    simp only [do_keyword_ID, get_inline_data, heos, hscan, Option.map_some']
    simp

/-- Witness for C6: the ASCII85 payload `x~> ` with `F = /A85` yields a
stream ending in `~>` and nothing else; the plain payload `y EI ` with
no `F` entry yields the stream then the `EI` keyword. -/
theorem inline_image_terminator_witness :
    (do_keyword_ID [("F", PDFObj.name "A85")] [120, 126, 62, 32] =
      some [Pushed.stream [("F", PDFObj.name "A85")]
        (stripTrailingEOL
          (([120, 126, 62, 32] : List Nat).take
            (([120, 126, 62, 32] : List Nat).length - (A85term.length + 1)))
          ++ A85term)] ∧
     Pushed.keywordEI ∉
       [Pushed.stream [("F", PDFObj.name "A85")]
         (stripTrailingEOL
           (([120, 126, 62, 32] : List Nat).take
             (([120, 126, 62, 32] : List Nat).length - (A85term.length + 1)))
           ++ A85term)]) ∧
    do_keyword_ID [] [121, 32, 69, 73, 32] =
      some [Pushed.stream []
          (stripTrailingEOL
            (([121, 32, 69, 73, 32] : List Nat).take
              (([121, 32, 69, 73, 32] : List Nat).length - (EIbytes.length + 1)))),
        Pushed.keywordEI] := by
  obtain ⟨w1, w2⟩ :=
    inline_image_terminator.1 [("F", PDFObj.name "A85")] [120, 126, 62, 32]
      "A85" [120, 126, 62, 32] (Or.inl rfl) (by decide) rfl
  exact ⟨⟨w1, w2 _ w1⟩,
    inline_image_terminator.2 [] [121, 32, 69, 73, 32] [121, 32, 69, 73, 32]
      rfl rfl⟩

/-! Lemmas for C10: the color-space maps built by `init_resources` keep
the predefined entries reachable, so `scs` and `ncs` are set from
`init_state` on and stay set. -/

theorem lookupD_isSome_iff {A : Type} (m : List (String × A)) (k : String) :
    (lookupD m k).isSome ↔ ∃ p ∈ m, p.1 = k := by
  rw [lookupD]
  simp only [Option.isSome_map', List.find?_isSome]
  simp

theorem lookupD_dictInsert_isSome {A : Type} (m : List (String × A))
    (k2 : String) (v : A) (k : String) (h : (lookupD m k).isSome) :
    (lookupD (dictInsert m k2 v) k).isSome := by
  rw [lookupD_isSome_iff] at h ⊢
  obtain ⟨p, hp, hk⟩ := h
  rw [dictInsert]
  by_cases ha : m.any (fun q => q.1 = k2)
  · rw [if_pos ha]
    refine ⟨if p.1 = k2 then (k2, v) else p,
      List.mem_map_of_mem _ hp, ?_⟩
    by_cases hpk : p.1 = k2
    · rw [if_pos hpk]
      rw [hpk] at hk
      exact hk
    · rw [if_neg hpk]
      exact hk
  · rw [if_neg ha]
    exact ⟨p, List.mem_append_left _ hp, hk⟩

theorem dictInsert_ne_nil {A : Type} (m : List (String × A)) (k : String)
    (v : A) : dictInsert m k v ≠ [] := by
  rw [dictInsert]
  by_cases ha : m.any (fun q => q.1 = k)
  · rw [if_pos ha]
    intro hc
    rw [List.map_eq_nil_iff] at hc
    subst hc
    simp at ha
  · rw [if_neg ha]
    simp

theorem foldl_csmap_lookup_isSome
    (entries : List (String × Option PDFColorSpace)) (k : String) :
    ∀ m : List (String × PDFColorSpace), (lookupD m k).isSome →
      (lookupD (entries.foldl
        (fun m p =>
          match p.2 with
          | some cs => dictInsert m p.1 cs
          | none => m) m) k).isSome := by
  induction entries with
  | nil => intro m h; exact h
  | cons e es ih =>
    intro m h
    rw [List.foldl_cons]
    apply ih
    obtain ⟨k1, v1⟩ := e
    cases v1 with
    | none => exact h
    | some cs => exact lookupD_dictInsert_isSome m k1 cs k h

theorem foldl_csmap_ne_nil
    (entries : List (String × Option PDFColorSpace)) :
    ∀ m : List (String × PDFColorSpace), m ≠ [] →
      entries.foldl
        (fun m p =>
          match p.2 with
          | some cs => dictInsert m p.1 cs
          | none => m) m ≠ [] := by
  induction entries with
  | nil => intro m h; exact h
  | cons e es ih =>
    intro m h
    rw [List.foldl_cons]
    apply ih
    obtain ⟨k1, v1⟩ := e
    cases v1 with
    | none => exact h
    | some cs => exact dictInsert_ne_nil m k1 cs

theorem init_csmap_lookup_isSome
    (entries : List (String × Option PDFColorSpace)) (k : String)
    (h : (lookupD PREDEFINED_COLORSPACE k).isSome) :
    (lookupD (init_csmap entries) k).isSome :=
  foldl_csmap_lookup_isSome entries k PREDEFINED_COLORSPACE h

theorem init_csmap_ne_nil (entries : List (String × Option PDFColorSpace)) :
    init_csmap entries ≠ [] :=
  foldl_csmap_ne_nil entries PREDEFINED_COLORSPACE (by simp [PREDEFINED_COLORSPACE])

/-- Every operator preserves `scs` and `ncs` being set, in any context
whose `csmap` retains the predefined DeviceGray, DeviceRGB and
DeviceCMYK entries. -/
theorem exec_colorspace_isSome (ctx : Ctx) (op : Op) (st : InterpState)
    (g1 : (lookupD ctx.csmap "DeviceGray").isSome)
    (g2 : (lookupD ctx.csmap "DeviceRGB").isSome)
    (g3 : (lookupD ctx.csmap "DeviceCMYK").isSome)
    (h1 : st.scs.isSome) (h2 : st.ncs.isSome) :
    (exec ctx op st).1.scs.isSome ∧ (exec ctx op st).1.ncs.isSome := by
  cases op
  case Q =>
    rcases hg : st.gstack with _ | ⟨⟨a, ts, gs⟩, rest⟩
    · rw [show exec ctx Op.Q st = do_Q st from rfl, do_Q_nil st hg]
      exact ⟨h1, h2⟩
    · rw [show exec ctx Op.Q st = do_Q st from rfl, do_Q_cons st a ts gs rest hg]
      exact ⟨h1, h2⟩
  case CS name =>
    refine ⟨?_, h2⟩
    show (match lookupD ctx.csmap name with
          | some cs => some cs
          | none => st.scs).isSome
    rcases lookupD ctx.csmap name with _ | cs
    · exact h1
    · rfl
  case cs name =>
    refine ⟨h1, ?_⟩
    show (match lookupD ctx.csmap name with
          | some cs => some cs
          | none => st.ncs).isSome
    rcases lookupD ctx.csmap name with _ | cs
    · exact h2
    · rfl
  case G x => exact ⟨g1, h2⟩
  case g x => exact ⟨h1, g1⟩
  case RG r g b => exact ⟨g2, h2⟩
  case rg r g b => exact ⟨h1, g2⟩
  case K c m y k => exact ⟨g3, h2⟩
  case k c m y k => exact ⟨h1, g3⟩
  all_goals exact ⟨h1, h2⟩

/-- The function `execList` preserves `scs` and `ncs` being set. -/
theorem execList_colorspace_isSome (ctx : Ctx) (ops : List Op)
    (g1 : (lookupD ctx.csmap "DeviceGray").isSome)
    (g2 : (lookupD ctx.csmap "DeviceRGB").isSome)
    (g3 : (lookupD ctx.csmap "DeviceCMYK").isSome) :
    ∀ st : InterpState, st.scs.isSome → st.ncs.isSome →
      (execList ctx ops st).1.scs.isSome ∧
      (execList ctx ops st).1.ncs.isSome := by
  induction ops with
  | nil => intro st h1 h2; exact ⟨h1, h2⟩
  | cons op ops ih =>
    intro st h1 h2
    obtain ⟨h1a, h2a⟩ := exec_colorspace_isSome ctx op st g1 g2 g3 h1 h2
    exact ih (exec ctx op st).1 h1a h2a

/-- C10: in every execution started through `render_contents`
(`init_resources` then `init_state` then any operator sequence), `scs`
and `ncs` are always set - `init_state` seeds both from the never-empty
`csmap` - so whenever `do_SCN` / `do_scn` runs, the no-colorspace branch
is not taken: the popped operand count is the current color space's
`ncomponents`. -/
theorem scn_colorspace_always_set (r : Resources) (ctm : Matrix)
    (ops : List Op) :
    (execList (ctxOfResources r) ops
        (init_state (ctxOfResources r) ctm).1).1.scs.isSome ∧
    (execList (ctxOfResources r) ops
        (init_state (ctxOfResources r) ctm).1).1.ncs.isSome ∧
    (∀ cs, (execList (ctxOfResources r) ops
        (init_state (ctxOfResources r) ctm).1).1.scs = some cs →
      scnComponents (execList (ctxOfResources r) ops
        (init_state (ctxOfResources r) ctm).1).1.scs = cs.ncomponents) ∧
    (∀ cs, (execList (ctxOfResources r) ops
        (init_state (ctxOfResources r) ctm).1).1.ncs = some cs →
      scnComponents (execList (ctxOfResources r) ops
        (init_state (ctxOfResources r) ctm).1).1.ncs = cs.ncomponents) := by
  have hg1 : (lookupD (ctxOfResources r).csmap "DeviceGray").isSome :=
    init_csmap_lookup_isSome r.colorSpaces "DeviceGray" (by rfl)
  have hg2 : (lookupD (ctxOfResources r).csmap "DeviceRGB").isSome :=
    init_csmap_lookup_isSome r.colorSpaces "DeviceRGB" (by rfl)
  have hg3 : (lookupD (ctxOfResources r).csmap "DeviceCMYK").isSome :=
    init_csmap_lookup_isSome r.colorSpaces "DeviceCMYK" (by rfl)
  have hne : (ctxOfResources r).csmap ≠ [] := init_csmap_ne_nil r.colorSpaces
  have hinit : (init_state (ctxOfResources r) ctm).1.scs.isSome ∧
      (init_state (ctxOfResources r) ctm).1.ncs.isSome := by
    rcases hcs : (ctxOfResources r).csmap with _ | ⟨p, rest⟩
    · exact absurd hcs hne
    · constructor <;> simp [init_state, hcs]
  obtain ⟨hi1, hi2⟩ := hinit
  obtain ⟨ha, hb⟩ :=
    execList_colorspace_isSome (ctxOfResources r) ops hg1 hg2 hg3
      (init_state (ctxOfResources r) ctm).1 hi1 hi2
  refine ⟨ha, hb, ?_, ?_⟩
  · intro cs hcs
    rw [hcs]
    rfl
  · intro cs hcs
    rw [hcs]
    rfl

/-- Witness for C10 at the concrete execution `cs /DeviceRGB` from the
initial state of a page with no resources: `scs` and `ncs` are set, and
the `scn` operand count is the DeviceRGB component count `3`. -/
theorem scn_colorspace_always_set_witness :
    (execList ctx0 [Op.cs "DeviceRGB"] st0).1.scs.isSome ∧
    (execList ctx0 [Op.cs "DeviceRGB"] st0).1.ncs.isSome ∧
    scnComponents (execList ctx0 [Op.cs "DeviceRGB"] st0).1.ncs =
      (PDFColorSpace.mk "DeviceRGB" 3).ncomponents := by
  obtain ⟨w1, w2, w3, w4⟩ :=
    scn_colorspace_always_set emptyResources MATRIX_IDENTITY [Op.cs "DeviceRGB"]
  exact ⟨w1, w2, w4 ⟨"DeviceRGB", 3⟩ rfl⟩

end Pdf
